import Mathlib

/-!
Shallow embedding of `op-export` (src/main.rs): a concurrent item exporter.
Pure data (JSON values, items) becomes inductive types; the provider trait
`Op` becomes a record of pure operations; `anyhow::Error` is modelled by its
message `String`; the nondeterminism of the two worker threads is made
explicit as the `arrival` order in which fetch results reach the results
channel, and thread-join outcomes as an explicit `joins` list.
-/

namespace OpExport

/-- Model of `serde_json::Value` (objects as association lists, which is how
`obj.get("id")` is observed by the code). -/
inductive JVal where
  | null
  | bool (b : Bool)
  | num (n : Int)
  | str (s : String)
  | arr (elems : List JVal)
  | obj (fields : List (String × JVal))

/-- `struct Item { id: String, json: serde_json::Value }` (main.rs lines 10-14). -/
structure Item where
  id : String
  json : JVal

/-- The provider trait `Op` (main.rs lines 33-37): `list_items` and `get_item`.
Errors are `anyhow` messages, modelled as `String`.  A value of this type is a
deterministic provider, as in the tests' `MockOp`. -/
structure OpM where
  list_items : Except String (List String)
  get_item : String → Except String JVal

/-- `MockOp` (main.rs lines 39-64): a map from id to optional body; an absent
body is a mock error, an unknown id a distinct error.  The `HashMap` is
modelled as an association list. -/
def MockOp (items : List (String × Option JVal)) : OpM where
  list_items := Except.ok (items.map Prod.fst)
  get_item := fun id =>
    match items.lookup id with
    | some (some body) => Except.ok body
    | some none => Except.error ("mock error for id " ++ id)
    | none => Except.error ("no id " ++ id ++ " in mock")

/-- The result a worker sends for one id:
`op.get_item(&id).map(|json| Item { id, json })` (main.rs line 207). -/
def fetchResult (op : OpM) (id : String) : Except String Item :=
  (op.get_item id).map fun json => { id := id, json := json }

/-- Worker loop `get_items` (main.rs lines 205-213).  `ids` is the sequence of
ids this worker dequeues; `sendOk j` tells whether the worker's `j`-th send on
the results channel succeeds (it fails once the receiving side is dropped).
The value is the list of results actually delivered: on the first failed send
the worker `break`s, delivering nothing further, and returns normally. -/
def get_items (op : OpM) (sendOk : Nat → Bool) : List String → Nat → List (Except String Item)
  | [], _ => []
  | id :: rest, j =>
    if sendOk j then fetchResult op id :: get_items op sendOk rest (j + 1)
    else []

/-- `struct ProgressReporter` (main.rs lines 176-179).  `Instant`s are
modelled as milliseconds on a monotonic clock. -/
structure ProgressReporter where
  last_report : Nat
  num_pending : Nat

/-- `ProgressReporter::pending` (main.rs lines 188-190). -/
def ProgressReporter.pending (p : ProgressReporter) : ProgressReporter :=
  { p with num_pending := p.num_pending + 1 }

/-- `ProgressReporter::done` (main.rs lines 192-202), with the sampled
`Instant::now()` passed in as `now`.  Returns the new state and whether a
progress line was emitted.  Note the emission test is *strict*:
`now.duration_since(self.last_report) > Duration::from_millis(1000)`. -/
def ProgressReporter.done (p : ProgressReporter) (now : Nat) : ProgressReporter × Bool :=
  let np := p.num_pending - 1
  if np > 0 then
    if now - p.last_report > 1000 then
      ({ last_report := now, num_pending := np }, true)
    else
      ({ p with num_pending := np }, false)
  else
    ({ p with num_pending := np }, false)

/-- `struct ToolOp` (main.rs lines 66-70).  The subprocess mechanics are out
of scope; only the `backoff` flag matters to the retry loop. -/
structure ToolOp where
  command : String
  backoff : Bool

/-- `rand::thread_rng().gen_range(lo, hi)`: a draw from the half-open
interval `[lo, hi)`, modelled from an arbitrary seed `r` as `lo + r % (hi - lo)`. -/
def genRange (lo hi r : Nat) : Nat := lo + r % (hi - lo)

/-- The retry loop body of `ToolOp::get_item` (main.rs lines 139-173).
`attempt k` is the outcome of the `k`-th underlying subprocess fetch
(`tries` is 1-based, exactly as in the source); `rng k` is the random seed
consumed when backing off after attempt `k`.  Returns the final result, the
number of attempts performed (the final value of `tries`), and the list of
sleeps actually performed.  `fuel` only serves termination: the source loop
always exits by the `tries == 5` check, and the loop is entered with
`fuel = 4, tries = 1`, so the fuel-exhausted branch is unreachable. -/
def getItemLoop (attempt : Nat → Except String JVal) (rng : Nat → Nat) (backoff : Bool) :
    Nat → Nat → Except String JVal × Nat × List Nat
  | fuel, tries =>
    match attempt tries with
    | Except.ok j => (Except.ok j, tries, [])
    | Except.error e =>
      if tries == 5 then
        (Except.error e, tries, [])
      else
        match fuel with
        | 0 => (Except.error e, tries, [])
        | f + 1 =>
          let bt := genRange (tries * 3000) ((tries + 1) * 3000) (rng tries)
          let rest := getItemLoop attempt rng backoff f (tries + 1)
          (rest.1, rest.2.1, (if backoff then [bt] else []) ++ rest.2.2)

/-- `ToolOp::get_item` (main.rs lines 139-173): the loop starts at
`tries = 0` and increments to 1 before the first attempt. -/
def ToolOp.get_item (t : ToolOp) (attempt : Nat → Except String JVal) (rng : Nat → Nat) :
    Except String JVal × Nat × List Nat :=
  getItemLoop attempt rng t.backoff 4 1

/-- The aggregation pipeline of `fetch_all_items` (main.rs lines 246-252):
`item_receiver.into_iter().map(|it| { progress.done(); it }).collect()`.
Collecting into `anyhow::Result<Vec<Item>>` short-circuits on the first
error; `progress.done()` fires once per result pulled (the error included).
We thread the reporter's count `c` explicitly and also return whether a
decrement was ever applied to a zero count (an underflow, which in Rust
would panic). -/
def aggLoop : List (Except String Item) → Nat → Except String (List Item) × Nat × Bool
  | [], c => (Except.ok [], c, false)
  | r :: rest, c =>
    let uf := c == 0
    match r with
    | Except.error e => (Except.error e, c - 1, uf)
    | Except.ok it =>
      let restOut := aggLoop rest (c - 1)
      (Except.map (fun l => it :: l) restOut.1, restOut.2.1, uf || restOut.2.2)

/-- Number of results the aggregation loop pulls from the stream: everything
up to and including the first error, or the whole stream if none fails. -/
def observedCount : List (Except String Item) → Nat
  | [] => 0
  | Except.ok _ :: rest => observedCount rest + 1
  | Except.error _ :: _ => 1

/-- The join loop of `fetch_all_items` (main.rs lines 254-261): the first
thread whose `join()` fails turns into the error `thread died: {:?}`, with
the panic payload modelled as the `String` carried by the failed join. -/
def joinAll : List (Except String Unit) → Except String Unit
  | [] => Except.ok ()
  | Except.ok _ :: rest => joinAll rest
  | Except.error e :: _ => Except.error ("thread died: " ++ e)

/-- `fetch_all_items` (main.rs lines 215-264), instrumented with the number
of `op.list_items()` invocations the run performs (second component).
`arrival` is the order in which worker results reach the results channel —
the one nondeterministic choice of the two-worker pipeline (any interleaving
of the listed ids); `joins` is the outcome of joining each spawned worker.
The source calls `op.list_items()` twice: once at line 231 (its result
`item_ids` is used only for the count log) and once at line 236 to enqueue. -/
def fetch_all_run (op : OpM) (arrival : List String) (joins : List (Except String Unit)) :
    Except String (List Item) × Nat :=
  match op.list_items with
  | Except.error e => (Except.error e, 1)
  | Except.ok _item_ids =>
    match op.list_items with
    | Except.error e => (Except.error e, 2)
    | Except.ok ids =>
      let results := arrival.map (fetchResult op)
      let items := (aggLoop results ids.length).1
      match joinAll joins with
      | Except.error e => (Except.error e, 2)
      | Except.ok _ => (items, 2)

/-- The value `fetch_all_items` returns to its caller. -/
def fetch_all_items (op : OpM) (arrival : List String) (joins : List (Except String Unit)) :
    Except String (List Item) :=
  (fetch_all_run op arrival joins).1

/-- `id_of_item` (main.rs lines 266-277). -/
def id_of_item (item : JVal) : Except String String :=
  match item with
  | JVal.obj obj =>
    match obj.lookup "id" with
    | some (JVal.str id) => Except.ok id
    | some _ => Except.error "item\x27s id was not a string"
    | none => Except.error "item did not have an id"
  | _ => Except.error "item not an object"

/-- The sort key `export` extracts per item:
`id_of_item(&item.json).unwrap()` (main.rs line 283), with the panic of
`unwrap` modelled as `none`. -/
def sortKeyOf (it : Item) : Option String := (id_of_item it.json).toOption

/-- The order `items.sort_by_key(...)` sorts by: comparison of the extracted
payload ids (not of the `Item.id` fields). -/
def payloadIdLe (a b : Item) : Prop :=
  (sortKeyOf a).getD "" ≤ (sortKeyOf b).getD ""

instance : DecidableRel payloadIdLe := fun a b =>
  inferInstanceAs (Decidable ((sortKeyOf a).getD "" ≤ (sortKeyOf b).getD ""))

instance : IsTotal Item payloadIdLe := ⟨fun a b => le_total _ _⟩

instance : IsTrans Item payloadIdLe := ⟨fun _ _ _ => le_trans⟩

/-- The sorting step of `export` (main.rs line 283):
`items.sort_by_key(|item| id_of_item(&item.json).unwrap())`.
`sort_by_key` evaluates the key closure only inside comparisons, and Rust's
stable sort performs no comparison at all on a slice of fewer than 2
elements, so such a slice never evaluates the `unwrap` and is returned
unchanged — even when its only payload has no `"id"` key.  On a slice of 2
or more elements every element takes part in at least one comparison, so
every element's key is evaluated at least once: if any item's payload has no
string-valued `"id"` key the `unwrap` panics (`none`), and otherwise the
items are sorted by their payload ids. -/
def exportSorted (items : List Item) : Option (List Item) :=
  if items.length < 2 then
    some items
  else if items.all (fun it => (id_of_item it.json).isOk) then
    some (List.insertionSort payloadIdLe items)
  else
    none

/-! ### Concrete fixtures (mirroring the providers built in the source tests) -/

/-- The payload `{"id": "id1"}`. -/
def payload1 : JVal := JVal.obj [("id", JVal.str "id1")]

/-- The payload `{"id": "id3"}`. -/
def payload3 : JVal := JVal.obj [("id", JVal.str "id3")]

/-- The provider of `test_fetch_all_items_some_failed`: `id2` always fails. -/
def mock3 : OpM := MockOp [("id1", some payload1), ("id2", none), ("id3", some payload3)]

/-- A two-id provider on which every fetch succeeds. -/
def mock2 : OpM := MockOp [("id1", some payload1), ("id3", some payload3)]

/-- Both worker threads join cleanly. -/
def joinsOk : List (Except String Unit) := [Except.ok (), Except.ok ()]

/-! ### Helper lemmas about the aggregation loop -/

theorem exists_ok_of_isOk {ε α : Type} {r : Except ε α} (h : r.isOk = true) :
    ∃ a, r = Except.ok a := by
  cases r with
  | ok a => exact ⟨a, rfl⟩
  | error e => simp [Except.isOk, Except.toBool] at h

theorem observedCount_le_length : ∀ rs : List (Except String Item), observedCount rs ≤ rs.length := by
  intro rs
  induction rs with
  | nil => simp [observedCount]
  | cons r rest ih =>
    cases r with
    | ok it => simpa [observedCount] using ih
    | error e => simp [observedCount]

theorem aggLoop_count_eq : ∀ (rs : List (Except String Item)) (c : Nat),
    (aggLoop rs c).2.1 = c - observedCount rs := by
  intro rs
  induction rs with
  | nil => intro c; simp [aggLoop, observedCount]
  | cons r rest ih =>
    intro c
    cases r with
    | ok it =>
      simp only [aggLoop, observedCount, ih (c - 1)]
      omega
    | error e => simp [aggLoop, observedCount]

theorem aggLoop_no_underflow : ∀ (rs : List (Except String Item)) (c : Nat),
    observedCount rs ≤ c → (aggLoop rs c).2.2 = false := by
  intro rs
  induction rs with
  | nil => intro c _; simp [aggLoop]
  | cons r rest ih =>
    intro c hc
    cases r with
    | ok it =>
      have h0 : c ≠ 0 := by simp [observedCount] at hc; omega
      have hrest : observedCount rest ≤ c - 1 := by simp [observedCount] at hc; omega
      simp [aggLoop, h0, ih (c - 1) hrest]
    | error e =>
      have h0 : c ≠ 0 := by simp [observedCount] at hc; omega
      simp [aggLoop, h0]

theorem aggLoop_all_ok (op : OpM) :
    ∀ (arrival : List String) (c : Nat),
    (∀ x ∈ arrival, (op.get_item x).isOk = true) →
    (aggLoop (arrival.map (fetchResult op)) c).1 =
      Except.ok (arrival.map fun id => Item.mk id ((op.get_item id).toOption.getD JVal.null)) := by
  intro arrival
  induction arrival with
  | nil => intro c _; simp [aggLoop]
  | cons a rest ih =>
    intro c hok
    have ha : (op.get_item a).isOk = true := hok a (List.mem_cons_self a rest)
    obtain ⟨j, hj⟩ := exists_ok_of_isOk ha
    have hrest := ih (c - 1) (fun x hx => hok x (List.mem_cons_of_mem a hx))
    simp [aggLoop, fetchResult, hj, hrest, Except.map, Except.toOption]

theorem aggLoop_first_error (op : OpM) (badId : String) (m : String)
    (hbad : op.get_item badId = Except.error m) :
    ∀ (preIds sufIds : List String) (c : Nat),
    (∀ x ∈ preIds, (op.get_item x).isOk = true) →
    (aggLoop (((preIds ++ badId :: sufIds)).map (fetchResult op)) c).1 = Except.error m := by
  intro preIds
  induction preIds with
  | nil => intro sufIds c _; simp [aggLoop, fetchResult, hbad, Except.map]
  | cons a rest ih =>
    intro sufIds c hok
    have ha : (op.get_item a).isOk = true := hok a (List.mem_cons_self a rest)
    obtain ⟨j, hj⟩ := exists_ok_of_isOk ha
    have hrest := ih sufIds (c - 1) (fun x hx => hok x (List.mem_cons_of_mem a hx))
    simp only [List.map_append, List.map_cons, fetchResult, hbad, Except.map] at hrest
    simp [aggLoop, fetchResult, hj, hbad, Except.map, hrest]

theorem aggLoop_one_bad (op : OpM) (bad m : String)
    (hm : op.get_item bad = Except.error m) :
    ∀ (arrival : List String) (c : Nat), bad ∈ arrival →
    (∀ x ∈ arrival, x ≠ bad → (op.get_item x).isOk = true) →
    (aggLoop (arrival.map (fetchResult op)) c).1 = Except.error m := by
  intro arrival
  induction arrival with
  | nil => intro c h; exact absurd h (List.not_mem_nil bad)
  | cons a rest ih =>
    intro c hmem hok
    by_cases hab : a = bad
    · subst hab
      simp [aggLoop, fetchResult, hm, Except.map]
    · have ha : (op.get_item a).isOk = true := hok a (List.mem_cons_self a rest) hab
      obtain ⟨j, hj⟩ := exists_ok_of_isOk ha
      have hmem' : bad ∈ rest := by
        rcases List.mem_cons.mp hmem with h | h
        · exact absurd h.symm hab
        · exact h
      have hrest := ih (c - 1) hmem' (fun x hx hxb => hok x (List.mem_cons_of_mem a hx) hxb)
      simp [aggLoop, fetchResult, hj, hrest, Except.map]

theorem joinAll_first_error : ∀ (pre : List (Except String Unit)) (p : String)
    (suf : List (Except String Unit)), (∀ j ∈ pre, j = Except.ok ()) →
    joinAll (pre ++ Except.error p :: suf) = Except.error ("thread died: " ++ p) := by
  intro pre
  induction pre with
  | nil => intro p suf _; simp [joinAll]
  | cons j rest ih =>
    intro p suf hok
    have hj : j = Except.ok () := hok j (List.mem_cons_self j rest)
    subst hj
    simpa [joinAll] using ih p suf (fun x hx => hok x (List.mem_cons_of_mem _ hx))

theorem fetch_all_items_eq_agg (op : OpM) (arrival : List String)
    (joins : List (Except String Unit)) (ids : List String)
    (hl : op.list_items = Except.ok ids) (hj : joinAll joins = Except.ok ()) :
    fetch_all_items op arrival joins = (aggLoop (arrival.map (fetchResult op)) ids.length).1 := by
  simp [fetch_all_items, fetch_all_run, hl, hj]

theorem fetch_all_items_join_error (op : OpM) (arrival : List String)
    (joins : List (Except String Unit)) (ids : List String) (e : String)
    (hl : op.list_items = Except.ok ids) (hj : joinAll joins = Except.error e) :
    fetch_all_items op arrival joins = Except.error e := by
  simp [fetch_all_items, fetch_all_run, hl, hj]

/-! ### Helper lemmas about the retry loop and the worker loop -/

theorem getItemLoop_tries_le (attempt : Nat → Except String JVal) (rng : Nat → Nat) (b : Bool) :
    ∀ fuel tries, (getItemLoop attempt rng b fuel tries).2.1 ≤ tries + fuel := by
  intro fuel
  induction fuel with
  | zero =>
    intro tries
    rw [getItemLoop]
    cases attempt tries with
    | ok j => simp
    | error e => split <;> simp
  | succ f ih =>
    intro tries
    rw [getItemLoop]
    cases attempt tries with
    | ok j => simp
    | error e =>
      by_cases h5 : tries = 5
      · have he : (tries == 5) = true := by simpa using h5
        simp [he]
      · have hne : (tries == 5) = false := by simpa using h5
        have h := ih (tries + 1)
        simp only [hne, Bool.false_eq_true, if_false]
        omega

theorem getItemLoop_all_fail (attempt : Nat → Except String JVal) (rng : Nat → Nat) (b : Bool)
    (e : Nat → String) :
    ∀ fuel tries, 1 ≤ tries → tries + fuel = 5 →
    (∀ k, 1 ≤ k → k ≤ 5 → attempt k = Except.error (e k)) →
    (getItemLoop attempt rng b fuel tries).1 = Except.error (e 5) ∧
    (getItemLoop attempt rng b fuel tries).2.1 = 5 := by
  intro fuel
  induction fuel with
  | zero =>
    intro tries h1 h5 hall
    have ht : tries = 5 := by omega
    subst ht
    rw [getItemLoop, hall 5 (by omega) (by omega)]
    simp
  | succ f ih =>
    intro tries h1 h5 hall
    have hne : (tries == 5) = false := by
      have : tries ≠ 5 := by omega
      simpa using this
    have hr := ih (tries + 1) (by omega) (by omega) hall
    rw [getItemLoop, hall tries (by omega) (by omega)]
    simp only [hne, Bool.false_eq_true, if_false]
    exact hr

theorem getItemLoop_flag_indep (attempt : Nat → Except String JVal) (rng : Nat → Nat) :
    ∀ fuel tries,
    (getItemLoop attempt rng false fuel tries).1 = (getItemLoop attempt rng true fuel tries).1 ∧
    (getItemLoop attempt rng false fuel tries).2.1 =
      (getItemLoop attempt rng true fuel tries).2.1 ∧
    (getItemLoop attempt rng false fuel tries).2.2 = [] := by
  intro fuel
  induction fuel with
  | zero =>
    intro tries
    rw [getItemLoop, getItemLoop]
    cases attempt tries with
    | ok j => simp
    | error e => split <;> simp
  | succ f ih =>
    intro tries
    rw [getItemLoop, getItemLoop]
    cases attempt tries with
    | ok j => simp
    | error e =>
      by_cases h5 : tries = 5
      · have he : (tries == 5) = true := by simpa using h5
        simp [he]
      · have hne : (tries == 5) = false := by simpa using h5
        have h := ih (tries + 1)
        simp [hne, h.1, h.2.1, h.2.2]

theorem get_items_go (op : OpM) (sendOk : Nat → Bool) :
    ∀ (ids : List String) (s j : Nat),
    (∀ i, i < j → sendOk (s + i) = true) → sendOk (s + j) = false → j < ids.length →
    get_items op sendOk ids s = (ids.take j).map (fetchResult op) := by
  intro ids
  induction ids with
  | nil =>
    intro s j _ _ hlen
    simp at hlen
  | cons a rest ih =>
    intro s j hbefore hj hlen
    cases j with
    | zero =>
      have h0 : sendOk s = false := by simpa using hj
      simp [get_items, h0]
    | succ j2 =>
      have hs : sendOk s = true := by simpa using hbefore 0 (by omega)
      have hrec := ih (s + 1) j2
        (fun i hi => by
          have h := hbefore (i + 1) (by omega)
          rwa [show s + (i + 1) = s + 1 + i by omega] at h)
        (by rwa [show s + 1 + j2 = s + (j2 + 1) by omega])
        (by simpa using hlen)
      simp [get_items, hs, hrec]

/-! ### Claim theorems -/

/-- C1: when some dequeued id's fetch fails (after retries), the aggregator of
`fetch_all_items` returns the first failure it observes as the run's outcome,
whatever results (successes or further failures) would have followed; in
particular, if exactly one id's fetch always fails with message `m` and all
other fetches succeed, `fetch_all_items` returns the error with message
exactly `m`, for every arrival order of the worker results. -/
theorem C1_first_failure_is_outcome :
    (∀ (op : OpM) (ids preIds sufIds : List String) (badId e : String)
      (joins : List (Except String Unit)),
      op.list_items = Except.ok ids → joinAll joins = Except.ok () →
      (∀ x ∈ preIds, (op.get_item x).isOk = true) →
      op.get_item badId = Except.error e →
      fetch_all_items op (preIds ++ badId :: sufIds) joins = Except.error e) ∧
    (∀ (op : OpM) (ids arrival : List String) (joins : List (Except String Unit)) (bad m : String),
      op.list_items = Except.ok ids → joinAll joins = Except.ok () →
      List.Perm arrival ids → bad ∈ ids → op.get_item bad = Except.error m →
      (∀ x ∈ ids, x ≠ bad → (op.get_item x).isOk = true) →
      fetch_all_items op arrival joins = Except.error m) := by
  constructor
  · intro op ids preIds sufIds badId e joins hl hj hok hbad
    rw [fetch_all_items_eq_agg op _ joins ids hl hj]
    exact aggLoop_first_error op badId e hbad preIds sufIds ids.length hok
  · intro op ids arrival joins bad m hl hj hperm hbad hm hok
    rw [fetch_all_items_eq_agg op arrival joins ids hl hj]
    exact aggLoop_one_bad op bad m hm arrival ids.length (hperm.mem_iff.mpr hbad)
      (fun x hx hxb => hok x (hperm.subset hx) hxb)

/-- Witness for C1: the scenario of `test_fetch_all_items_some_failed` —
`id2` always fails with `mock error for id id2`, the others succeed, and the
run returns exactly that message. -/
theorem C1_first_failure_is_outcome_witness :
    fetch_all_items mock3 ["id3", "id2", "id1"] joinsOk =
      Except.error "mock error for id id2" :=
  C1_first_failure_is_outcome.2 mock3 ["id1", "id2", "id3"] ["id3", "id2", "id1"] joinsOk
    "id2" "mock error for id id2" rfl rfl (by decide) (by decide) rfl (by decide)

/-- C3: if every `get_item` on the listed ids succeeds, `fetch_all_items`
returns `Ok` with exactly one `Item` per listed id — the multiset of result
ids equals the listed multiset (no omissions, no duplicates) and each item
carries that id's payload — for every arrival order of the worker results
(hence for any worker count). -/
theorem C3_all_success_complete (op : OpM) (ids arrival : List String)
    (joins : List (Except String Unit))
    (hl : op.list_items = Except.ok ids) (hj : joinAll joins = Except.ok ())
    (hperm : List.Perm arrival ids)
    (hok : ∀ id ∈ ids, (op.get_item id).isOk = true) :
    ∃ items, fetch_all_items op arrival joins = Except.ok items ∧
      List.Perm (items.map Item.id) ids ∧
      ∀ it ∈ items, op.get_item it.id = Except.ok it.json := by
  refine ⟨arrival.map (fun id => Item.mk id ((op.get_item id).toOption.getD JVal.null)),
    ?_, ?_, ?_⟩
  · rw [fetch_all_items_eq_agg op arrival joins ids hl hj]
    exact aggLoop_all_ok op arrival ids.length (fun x hx => hok x (hperm.subset hx))
  · have hmap : ∀ l : List String, (l.map
        (fun id => Item.mk id ((op.get_item id).toOption.getD JVal.null))).map Item.id = l := by
      intro l
      induction l with
      | nil => rfl
      | cons a t ih => simp [ih]
    rw [hmap arrival]
    exact hperm
  · intro it hit
    simp only [List.mem_map] at hit
    obtain ⟨id, hid, rfl⟩ := hit
    obtain ⟨j, hj2⟩ := exists_ok_of_isOk (hok id (hperm.subset hid))
    simp [hj2, Except.toOption]

/-- Witness for C3: the all-success scenario of `test_fetch_all_items_all_success`
restricted to ids `id1`, `id3`, with results arriving in reversed order. -/
theorem C3_all_success_complete_witness :
    ∃ items, fetch_all_items mock2 ["id3", "id1"] joinsOk = Except.ok items ∧
      List.Perm (items.map Item.id) ["id1", "id3"] ∧
      ∀ it ∈ items, mock2.get_item it.id = Except.ok it.json :=
  C3_all_success_complete mock2 ["id1", "id3"] ["id3", "id1"] joinsOk rfl rfl
    (by decide) (by decide)

/-- C4: contrary to the claim, one run of `fetch_all_items` whose listing
succeeds invokes the provider's `list_items` operation twice, not once —
once at main.rs line 231 (the result is used only for the count log) and
once at line 236 (whose result is the set of ids actually enqueued). -/
theorem C4_list_items_called_twice :
    (fetch_all_run mock2 ["id1", "id3"] joinsOk).2 = 2 := rfl

/-- C5: in a run of `fetch_all_items` the reporter count starts at the number
of enqueued ids (one `pending()` per id) and is decremented once per result
the aggregation loop observes; the number of observed results never exceeds
the number of enqueued ids, no decrement is ever applied to a zero count
(no underflow, so the count stays ≥ 0), and the final count is zero exactly
when every enqueued id's result was observed. -/
theorem C5_pending_count_invariant (op : OpM) (ids arrival : List String)
    (hl : op.list_items = Except.ok ids) (hperm : List.Perm arrival ids) :
    observedCount (arrival.map (fetchResult op)) ≤ ids.length ∧
    (aggLoop (arrival.map (fetchResult op)) ids.length).2.2 = false ∧
    (aggLoop (arrival.map (fetchResult op)) ids.length).2.1 =
      ids.length - observedCount (arrival.map (fetchResult op)) ∧
    ((aggLoop (arrival.map (fetchResult op)) ids.length).2.1 = 0 ↔
      observedCount (arrival.map (fetchResult op)) = ids.length) := by
  have hle : observedCount (arrival.map (fetchResult op)) ≤ ids.length := by
    calc observedCount (arrival.map (fetchResult op))
        ≤ (arrival.map (fetchResult op)).length := observedCount_le_length _
      _ = arrival.length := List.length_map _ _
      _ = ids.length := hperm.length_eq
  refine ⟨hle, aggLoop_no_underflow _ _ hle, aggLoop_count_eq _ _, ?_⟩
  rw [aggLoop_count_eq]
  omega

/-- Witness for C5: the failing run over `mock3` with arrival order
`id3, id2, id1` observes 2 of the 3 enqueued results (it short-circuits on
`id2`), never underflows, and ends with count 1 ≠ 0. -/
theorem C5_pending_count_invariant_witness :
    observedCount (["id3", "id2", "id1"].map (fetchResult mock3)) ≤
      (["id1", "id2", "id3"] : List String).length ∧
    (aggLoop (["id3", "id2", "id1"].map (fetchResult mock3))
      (["id1", "id2", "id3"] : List String).length).2.2 = false ∧
    (aggLoop (["id3", "id2", "id1"].map (fetchResult mock3))
      (["id1", "id2", "id3"] : List String).length).2.1 =
      (["id1", "id2", "id3"] : List String).length -
        observedCount (["id3", "id2", "id1"].map (fetchResult mock3)) ∧
    ((aggLoop (["id3", "id2", "id1"].map (fetchResult mock3))
      (["id1", "id2", "id3"] : List String).length).2.1 = 0 ↔
      observedCount (["id3", "id2", "id1"].map (fetchResult mock3)) =
        (["id1", "id2", "id3"] : List String).length) :=
  C5_pending_count_invariant mock3 ["id1", "id2", "id3"] ["id3", "id2", "id1"] rfl (by decide)

/-- C2: `ToolOp::get_item` performs at most 5 attempts of the underlying
fetch for any id; when every attempt fails, it returns the error of the 5th
attempt unmodified and performs exactly 5 attempts, no more. -/
theorem C2_retry_at_most_five (t : ToolOp) (attempt : Nat → Except String JVal)
    (rng : Nat → Nat) :
    (ToolOp.get_item t attempt rng).2.1 ≤ 5 ∧
    (∀ e : Nat → String, (∀ k, 1 ≤ k → k ≤ 5 → attempt k = Except.error (e k)) →
      (ToolOp.get_item t attempt rng).1 = Except.error (e 5) ∧
      (ToolOp.get_item t attempt rng).2.1 = 5) := by
  constructor
  · simpa [ToolOp.get_item] using getItemLoop_tries_le attempt rng t.backoff 4 1
  · intro e hall
    simpa [ToolOp.get_item] using
      getItemLoop_all_fail attempt rng t.backoff e 4 1 (by omega) (by omega) hall

/-- Witness for C2: a fetch that always fails with `boom` is attempted
exactly 5 times and surfaces `boom` unmodified. -/
theorem C2_retry_at_most_five_witness :
    (ToolOp.get_item { command := "op", backoff := true }
        (fun _ => Except.error "boom") (fun _ => 0)).1 = Except.error "boom" ∧
    (ToolOp.get_item { command := "op", backoff := true }
        (fun _ => Except.error "boom") (fun _ => 0)).2.1 = 5 :=
  (C2_retry_at_most_five { command := "op", backoff := true }
      (fun _ => Except.error "boom") (fun _ => 0)).2
    (fun _ => "boom") (fun _ _ _ => rfl)

/-- C6 counterexample: with exactly 1000ms elapsed since the last report and
a still-positive resulting count, `ProgressReporter::done` emits nothing —
the source test is strictly `> 1000ms`, so "at least 1000ms" is wrong at the
boundary. -/
theorem C6_no_emit_at_exactly_1000ms :
    (ProgressReporter.done { last_report := 0, num_pending := 2 } 1000).2 = false ∧
    ({ last_report := 0, num_pending := 2 } : ProgressReporter).num_pending - 1 > 0 ∧
    1000 - ({ last_report := 0, num_pending := 2 } : ProgressReporter).last_report ≥ 1000 := by
  decide

/-- C6 (amended): each `done()` call decrements the count; a progress line is
emitted iff the resulting count is still > 0 and *strictly more than* 1000ms
elapsed since the last emitted report, in which case the timer is reset
(otherwise it is unchanged); once the count reaches 0 nothing is emitted. -/
theorem C6_done_characterization (p : ProgressReporter) (now : Nat)
    (hpos : 0 < p.num_pending) :
    (p.done now).1.num_pending = p.num_pending - 1 ∧
    ((p.done now).2 = true ↔ p.num_pending - 1 > 0 ∧ now - p.last_report > 1000) ∧
    ((p.done now).2 = true → (p.done now).1.last_report = now) ∧
    ((p.done now).2 = false → (p.done now).1.last_report = p.last_report) ∧
    (p.num_pending - 1 = 0 → (p.done now).2 = false) := by
  clear hpos
  unfold ProgressReporter.done
  by_cases hnp : p.num_pending - 1 > 0
  · by_cases ht : now - p.last_report > 1000
    · simp only [hnp, ht, if_true, if_pos]
      simp
      omega
    · simp [hnp, ht]
  · simp [hnp]

/-- Witness for C6: from count 2 with 2000ms elapsed, `done` decrements to 1,
emits, and resets the timer. -/
theorem C6_done_characterization_witness :
    (ProgressReporter.done { last_report := 0, num_pending := 2 } 2000).1.num_pending =
      ({ last_report := 0, num_pending := 2 } : ProgressReporter).num_pending - 1 ∧
    ((ProgressReporter.done { last_report := 0, num_pending := 2 } 2000).2 = true ↔
      ({ last_report := 0, num_pending := 2 } : ProgressReporter).num_pending - 1 > 0 ∧
      2000 - ({ last_report := 0, num_pending := 2 } : ProgressReporter).last_report > 1000) ∧
    ((ProgressReporter.done { last_report := 0, num_pending := 2 } 2000).2 = true →
      (ProgressReporter.done { last_report := 0, num_pending := 2 } 2000).1.last_report = 2000) ∧
    ((ProgressReporter.done { last_report := 0, num_pending := 2 } 2000).2 = false →
      (ProgressReporter.done { last_report := 0, num_pending := 2 } 2000).1.last_report =
        ({ last_report := 0, num_pending := 2 } : ProgressReporter).last_report) ∧
    (({ last_report := 0, num_pending := 2 } : ProgressReporter).num_pending - 1 = 0 →
      (ProgressReporter.done { last_report := 0, num_pending := 2 } 2000).2 = false) :=
  C6_done_characterization { last_report := 0, num_pending := 2 } 2000 (by decide)

/-- C7: for each failed attempt `k` (k = 1..4) the backoff before attempt
`k + 1` lies in the half-open window `[k * 3000, (k + 1) * 3000)` ms (BASE is
the fixed constant 3000), every value of that window is attainable, and the
window grows with `k`; disabling the `backoff` flag skips the sleeps (the
sleep list is empty) while the retries still execute with the same result
and the same number of attempts. -/
theorem C7_backoff_window (k r : Nat) (h1 : 1 ≤ k) (h2 : k ≤ 4) :
    (k * 3000 ≤ genRange (k * 3000) ((k + 1) * 3000) r ∧
      genRange (k * 3000) ((k + 1) * 3000) r < (k + 1) * 3000) ∧
    (∀ v, k * 3000 ≤ v → v < (k + 1) * 3000 →
      ∃ s, genRange (k * 3000) ((k + 1) * 3000) s = v) ∧
    (∀ (cmd : String) (attempt : Nat → Except String JVal) (rng : Nat → Nat),
      (ToolOp.get_item { command := cmd, backoff := false } attempt rng).1 =
        (ToolOp.get_item { command := cmd, backoff := true } attempt rng).1 ∧
      (ToolOp.get_item { command := cmd, backoff := false } attempt rng).2.1 =
        (ToolOp.get_item { command := cmd, backoff := true } attempt rng).2.1 ∧
      (ToolOp.get_item { command := cmd, backoff := false } attempt rng).2.2 = []) := by
  have hd : (k + 1) * 3000 - k * 3000 = 3000 := by ring_nf; omega
  refine ⟨?_, ?_, ?_⟩
  · unfold genRange
    rw [hd]
    have hm : r % 3000 < 3000 := Nat.mod_lt _ (by omega)
    constructor
    · omega
    · have : (k + 1) * 3000 = k * 3000 + 3000 := by ring
      omega
  · intro v hv1 hv2
    refine ⟨v - k * 3000, ?_⟩
    unfold genRange
    rw [hd]
    have hlt : v - k * 3000 < 3000 := by
      have : (k + 1) * 3000 = k * 3000 + 3000 := by ring
      omega
    rw [Nat.mod_eq_of_lt hlt]
    omega
  · intro cmd attempt rng
    simpa [ToolOp.get_item] using getItemLoop_flag_indep attempt rng 4 1

/-- Witness for C7: for attempt 2 and seed 12345 the backoff lies in
`[6000, 9000)`, and the no-backoff configuration performs no sleeps. -/
theorem C7_backoff_window_witness :
    (2 * 3000 ≤ genRange (2 * 3000) ((2 + 1) * 3000) 12345 ∧
      genRange (2 * 3000) ((2 + 1) * 3000) 12345 < (2 + 1) * 3000) ∧
    (ToolOp.get_item { command := "op", backoff := false }
      (fun _ => Except.error "boom") (fun _ => 0)).2.2 = [] :=
  ⟨(C7_backoff_window 2 12345 (by decide) (by decide)).1,
    ((C7_backoff_window 2 12345 (by decide) (by decide)).2.2 "op"
      (fun _ => Except.error "boom") (fun _ => 0)).2.2⟩

/-- C8: a worker (`get_items`) whose `j`-th send fails (because the
receiving side was closed) delivers exactly the first `j` results, sends
nothing further, and exits its loop normally — `get_items` returns a plain
list, so the failed send is not an error and cannot panic or block. -/
theorem C8_worker_stops_after_send_failure (op : OpM) (sendOk : Nat → Bool)
    (ids : List String) (j : Nat)
    (hbefore : ∀ i, i < j → sendOk i = true) (hj : sendOk j = false)
    (hlen : j < ids.length) :
    get_items op sendOk ids 0 = (ids.take j).map (fetchResult op) ∧
    (get_items op sendOk ids 0).length = j := by
  have h := get_items_go op sendOk ids 0 j
    (fun i hi => by simpa using hbefore i hi) (by simpa using hj) hlen
  refine ⟨h, ?_⟩
  rw [h]
  simp [List.length_take]
  omega

/-- Witness for C8: with the channel closing after 2 sends, a worker that
dequeued 3 ids delivers exactly the first 2 results. -/
theorem C8_worker_stops_after_send_failure_witness :
    get_items mock2 (fun i => decide (i < 2)) ["id1", "id3", "id1"] 0 =
      ((["id1", "id3", "id1"] : List String).take 2).map (fetchResult mock2) ∧
    (get_items mock2 (fun i => decide (i < 2)) ["id1", "id3", "id1"] 0).length = 2 :=
  C8_worker_stops_after_send_failure mock2 (fun i => decide (i < 2)) ["id1", "id3", "id1"] 2
    (fun _ hi => decide_eq_true hi) (by decide) (by decide)

/-- C9: if any worker thread's `join()` reports that the thread terminated
abnormally, `fetch_all_items` returns the distinct error
`thread died: <payload>` — whatever the aggregated results were, successes
included, the run is not reported as successful. -/
theorem C9_thread_death_surfaces (op : OpM) (arrival ids : List String)
    (pre suf : List (Except String Unit)) (p : String)
    (hl : op.list_items = Except.ok ids)
    (hpre : ∀ j ∈ pre, j = Except.ok ()) :
    fetch_all_items op arrival (pre ++ Except.error p :: suf) =
      Except.error ("thread died: " ++ p) :=
  fetch_all_items_join_error op arrival _ ids _ hl (joinAll_first_error pre p suf hpre)

/-- Witness for C9: over `mock2` every fetch succeeds, yet with the second
worker dead the run fails with the thread-death error. -/
theorem C9_thread_death_surfaces_witness :
    fetch_all_items mock2 ["id3", "id1"] ([Except.ok ()] ++ Except.error "PanicPayload" :: []) =
      Except.error ("thread died: " ++ "PanicPayload") :=
  C9_thread_death_surfaces mock2 ["id3", "id1"] ["id1", "id3"] [Except.ok ()] [] "PanicPayload"
    rfl (fun _ hj => List.mem_singleton.mp hj)

/-- C10 counterexample: the claim predicts that export panics whenever any
successfully fetched payload lacks a string-valued `"id"` key; but with a
single fetched item `sort_by_key` performs no comparison at all, so the key
closure — and its `unwrap` — is never evaluated: here the only item's
payload is `null`, `id_of_item` fails on it, and yet the sorting step
succeeds, returning the item unchanged. -/
theorem C10_singleton_bad_payload_no_panic :
    (id_of_item JVal.null).isOk = false ∧
    exportSorted [Item.mk "x" JVal.null] = some [Item.mk "x" JVal.null] :=
  ⟨rfl, rfl⟩

/-- C10 (amended): `export` sorts the fetched items by the `"id"` field of
each item's JSON payload — the order `payloadIdLe` compares the payload ids
extracted by `id_of_item`, not the `Item.id` strings, as the concrete last
conjunct shows on items whose own ids would sort the other way — extracting
the key with an unchecked unwrap that `sort_by_key` evaluates only inside
comparisons: if every payload is an object with a string `"id"` the sort
succeeds; if the list has at least two items and some payload is not, the
sorting step panics (`none`) instead of returning an error; and a list of
fewer than two items is returned unchanged without the key ever being
extracted, so it never panics even on a bad payload. -/
theorem C10_sort_by_payload_id :
    (∀ items : List Item, (∀ it ∈ items, (id_of_item it.json).isOk = true) →
      ∃ out, exportSorted items = some out ∧ List.Perm out items ∧
        List.Sorted payloadIdLe out) ∧
    (∀ items : List Item, 2 ≤ items.length →
      (∃ it ∈ items, (id_of_item it.json).isOk = false) →
      exportSorted items = none) ∧
    (∀ items : List Item, items.length < 2 → exportSorted items = some items) ∧
    (exportSorted [Item.mk "z" (JVal.obj [("id", JVal.str "a")]),
        Item.mk "a" (JVal.obj [("id", JVal.str "z")])] =
      some [Item.mk "z" (JVal.obj [("id", JVal.str "a")]),
        Item.mk "a" (JVal.obj [("id", JVal.str "z")])]) := by
  refine ⟨?_, ?_, ?_, ?_⟩
  · intro items hok
    by_cases hlen : items.length < 2
    · refine ⟨items, by simp [exportSorted, hlen], List.Perm.refl items, ?_⟩
      rcases items with _ | ⟨a, _ | ⟨b, t⟩⟩
      · exact List.sorted_nil
      · exact List.sorted_singleton a
      · exfalso
        simp [List.length_cons] at hlen
        omega
    · have hall : (items.all fun it => (id_of_item it.json).isOk) = true :=
        List.all_eq_true.mpr hok
      exact ⟨List.insertionSort payloadIdLe items, by simp [exportSorted, hlen, hall],
        List.perm_insertionSort _ _, List.sorted_insertionSort _ _⟩
  · intro items hlen2 hbad
    obtain ⟨it, hit, hfail⟩ := hbad
    have hnl : ¬ items.length < 2 := by omega
    have hall : (items.all fun it => (id_of_item it.json).isOk) = false := by
      rw [List.all_eq_false]
      exact ⟨it, hit, by simp [hfail]⟩
    simp [exportSorted, hnl, hall]
  · intro items hlen
    simp [exportSorted, hlen]
  · simp [exportSorted, List.insertionSort, List.orderedInsert, id_of_item, payloadIdLe,
      sortKeyOf, Except.toOption, Except.isOk, Except.toBool]
    decide

/-- Witness for C10: a well-formed two-item export sorts successfully; a
two-item export in which one payload has no `"id"` key makes the sorting
step panic; and a singleton export is returned unchanged. -/
theorem C10_sort_by_payload_id_witness :
    (∃ out, exportSorted [Item.mk "id1" payload1, Item.mk "id3" payload3] =
        some out ∧
      List.Perm out [Item.mk "id1" payload1, Item.mk "id3" payload3] ∧
      List.Sorted payloadIdLe out) ∧
    exportSorted [Item.mk "id1" payload1, Item.mk "x" JVal.null] = none ∧
    exportSorted [Item.mk "id1" payload1] = some [Item.mk "id1" payload1] :=
  ⟨C10_sort_by_payload_id.1 [Item.mk "id1" payload1, Item.mk "id3" payload3] (by decide),
    C10_sort_by_payload_id.2.1 [Item.mk "id1" payload1, Item.mk "x" JVal.null] (by decide)
      ⟨Item.mk "x" JVal.null, List.mem_cons_of_mem _ (List.mem_singleton.mpr rfl), rfl⟩,
    C10_sort_by_payload_id.2.2.1 [Item.mk "id1" payload1] (by decide)⟩

end OpExport
